import Mathlib

/-!
Verification of the AI query web backend (`src/app.py`).

The program is a small Flask application with one POST endpoint
`/api/query` (`handle_query`, lines 71-107), an SQLite store with a
single `queries` table created by `init_db` (lines 24-37), a
per-request connection (`get_db`, lines 15-22) released at teardown
(`close_connection`, lines 42-47), and a Gemini client initialised at
process start (lines 51-61).

The shallow embedding below models the request handler as a pure
function over: the (possibly unbound) gateway client, a flag telling
whether the database insert/commit succeeds, the current wall-clock
value used for the row timestamp, the store state, and the parsed
request body.  Python exceptions that the handler does not catch are
represented by the `Outcome.uncaught` constructor; the single
`try/except` of the handler corresponds to the branches that produce
the fixed 500 response.
-/

set_option autoImplicit false

namespace AIQueryApp

/-- A Python value as obtained from `request.get_json()`: the JSON
universe (objects become Python dicts, modelled as association
lists). -/
inductive PyVal where
  | pyNone
  | pyBool (b : Bool)
  | pyInt (n : Int)
  | pyStr (s : String)
  | pyList (xs : List PyVal)
  | pyDict (fields : List (String × PyVal))

/-- Python `dict.get`: first entry with the given key, if any. -/
def dictGet (fields : List (String × PyVal)) (k : String) : Option PyVal :=
  match fields with
  | [] => none
  | (k₀, v) :: rest => if k₀ = k then some v else dictGet rest k

/-- Exceptions that can escape `handle_query` (they are raised on
lines 74-75, before the `try` block starts on line 84). -/
inductive PyExc where
  | badRequest
  | attributeError
deriving DecidableEq

/-- The request body as seen by `request.get_json()`: either it fails
to parse as JSON (Flask raises a `BadRequest` that the handler does
not catch) or it parses to a Python value. -/
inductive ReqBody where
  | invalidJson
  | parsed (data : PyVal)

/-- What a call to the handler produces: a normal JSON response with a
status code, or an exception escaping the handler. -/
inductive Outcome where
  | response (status : Nat) (body : List (String × PyVal))
  | uncaught (e : PyExc)

/-- One row of the `queries` table (`init_db`, lines 30-35).  `id` is
assigned by AUTOINCREMENT and `timestamp` defaults to the wall clock,
modelled as a `Nat` supplied by the environment. -/
structure Row where
  id : Nat
  question : String
  answer : String
  timestamp : Nat
deriving DecidableEq

/-- The `queries` table contents plus the next AUTOINCREMENT value. -/
structure Store where
  nextId : Nat
  rows : List Row
deriving DecidableEq

/-- Effect of `INSERT INTO queries (question, answer) VALUES (?, ?)`
followed by `commit` (lines 94-98): append one row with the next id
and the current time. -/
def insertRow (st : Store) (q a : String) (now : Nat) : Store :=
  { nextId := st.nextId + 1, rows := st.rows ++ [⟨st.nextId, q, a, now⟩] }

/-- State of the per-request SQLite connection held in `g._database`. -/
inductive ConnState where
  | opened
  | closed
deriving DecidableEq

/-- Result of running the handler: the HTTP outcome, the store state
after the request, and the per-request connection slot
(`g._database`: `none` when `get_db` was never called). -/
structure ReqResult where
  outcome : Outcome
  store : Store
  conn : Option ConnState

/-- The AI gateway (`client.models.generate_content` followed by
`.text`, lines 86-90): from the trimmed question to either the
generated text or a raised error. -/
def Gateway : Type := String → Except Unit String

/-- The characters stripped by Python's `str.strip()` with no
argument (ASCII fragment: space, tab, newline, carriage return,
vertical tab, form feed). -/
def pyWhitespace (c : Char) : Bool :=
  c == ' ' || c == '\t' || c == '\n' || c == '\r' || c == '\x0b' || c == '\x0c'

/-- Drop the leading whitespace characters of a character list. -/
def dropLeadingWs : List Char → List Char
  | [] => []
  | c :: cs => if pyWhitespace c then dropLeadingWs cs else c :: cs

/-- Python `str.strip()`: remove whitespace from both ends. -/
def pyStrip (s : String) : String :=
  ⟨(dropLeadingWs (dropLeadingWs s.data).reverse).reverse⟩

/-- Lines 74-75: `data.get('question', '')` followed by `.strip()`'s
receiver check.  On a non-dict value `.get` raises `AttributeError`;
when the value under `"question"` is not a string, `.strip()` raises
`AttributeError`.  (The trim itself is applied by the caller.) -/
def getQuestionField (data : PyVal) : Except PyExc String :=
  match data with
  | PyVal.pyDict fields =>
    match dictGet fields "question" with
    | none => Except.ok ""
    | some (PyVal.pyStr s) => Except.ok s
    | some _ => Except.error PyExc.attributeError
  | _ => Except.error PyExc.attributeError

/-- The fixed 400 body of line 78. -/
def body400 : List (String × PyVal) := [("error", PyVal.pyStr "No question provided.")]

/-- The fixed 500 body of line 107. -/
def body500 : List (String × PyVal) :=
  [("error", PyVal.pyStr "An error occurred while contacting the AI.")]

/-- `handle_query` (lines 71-107).  `client` is the module-level
Gemini client: `none` when `genai.Client` raised at startup and the
name was left unbound, in which case referencing it inside the `try`
raises a `NameError` that the `except` maps to the 500 response.
`insertOk` tells whether the execute/commit pair of lines 94-98
succeeds; when it raises, the exception is caught on line 105 and
nothing is committed, so the store is unchanged (the connection,
already opened by `get_db` on line 93, stays open until teardown). -/
def handle_query (client : Option Gateway) (insertOk : Bool) (now : Nat)
    (st : Store) (body : ReqBody) : ReqResult :=
  match body with
  | ReqBody.invalidJson => ⟨Outcome.uncaught PyExc.badRequest, st, none⟩
  | ReqBody.parsed data =>
    match getQuestionField data with
    | Except.error e => ⟨Outcome.uncaught e, st, none⟩
    | Except.ok raw =>
      let user_question := pyStrip raw
      if user_question = "" then
        ⟨Outcome.response 400 body400, st, none⟩
      else
        match client with
        | none => ⟨Outcome.response 500 body500, st, none⟩
        | some gw =>
          match gw user_question with
          | Except.error _ => ⟨Outcome.response 500 body500, st, none⟩
          | Except.ok ai_answer =>
            if insertOk then
              ⟨Outcome.response 200 [("answer", PyVal.pyStr ai_answer)],
                insertRow st user_question ai_answer now, some ConnState.opened⟩
            else
              ⟨Outcome.response 500 body500, st, some ConnState.opened⟩

/-- `close_connection` (lines 42-47): at teardown, close `g._database`
when it is set; Flask runs this on every exit path, exceptions
included. -/
def close_connection (conn : Option ConnState) : Option ConnState :=
  match conn with
  | none => none
  | some _ => some ConnState.closed

/-- One full request: the handler followed by the teardown hook. -/
def requestCycle (client : Option Gateway) (insertOk : Bool) (now : Nat)
    (st : Store) (body : ReqBody) : ReqResult :=
  let r := handle_query client insertOk now st body
  { r with conn := close_connection r.conn }

/-- True when the per-request connection slot holds no open connection. -/
def connReleased (conn : Option ConnState) : Bool :=
  match conn with
  | some ConnState.opened => false
  | _ => true

/-- A table of the SQLite file: its name and column names. -/
structure TableDef where
  name : String
  columns : List String
deriving DecidableEq

/-- The columns declared by the `CREATE TABLE` statement of
`init_db` (lines 30-35). -/
def queriesColumns : List String := ["id", "question", "answer", "timestamp"]

/-- The SQLite database file: its tables, and the rows of the
`queries` table. -/
structure DBState where
  tables : List TableDef
  rows : List Row
deriving DecidableEq

/-- `CREATE TABLE IF NOT EXISTS`: a no-op when a table with that name
exists, otherwise the table is added (rows untouched). -/
def createTableIfNotExists (db : DBState) (t : TableDef) : DBState :=
  if db.tables.any (fun tb => tb.name == t.name) then db
  else { db with tables := db.tables ++ [t] }

/-- `init_db` (lines 24-37): create the `queries` table if absent and
commit. -/
def init_db (db : DBState) : DBState :=
  createTableIfNotExists db ⟨"queries", queriesColumns⟩

/-- Startup of the Gemini client (lines 57-61): `genai.Client` is run
inside `try/except`; on an exception the error is printed and the
module-level name `client` is left unbound (`none`), and the process
keeps starting.  The argument is the result of the library call. -/
def startupClient (initResult : Except PyExc Gateway) : Option Gateway :=
  match initResult with
  | Except.ok c => some c
  | Except.error _ => none

/-- The client states reachable when the `GEMINI_API_KEY` environment
variable is absent: either `genai.Client` raised at startup (so the
name `client` was never bound), or a client object exists whose every
`generate_content` call fails with an authentication error. -/
def credentialMissing (client : Option Gateway) : Prop :=
  client = none ∨ ∃ gw, client = some gw ∧ ∀ q, gw q = Except.error ()

/-- Rows with the store-assigned timestamp column erased. -/
def eraseTimestamps (rows : List Row) : List (Nat × String × String) :=
  rows.map (fun r => (r.id, r.question, r.answer))

/-! ## General lemmas about the embedding -/

theorem init_db_rows (db : DBState) : (init_db db).rows = db.rows := by
  unfold init_db createTableIfNotExists
  split <;> rfl

theorem init_db_has_queries (db : DBState) :
    ((init_db db).tables.any fun tb => tb.name == "queries") = true := by
  unfold init_db createTableIfNotExists
  split
  · assumption
  · simp [List.any_append]

theorem init_db_of_has (db : DBState)
    (h : (db.tables.any fun tb => tb.name == "queries") = true) : init_db db = db := by
  unfold init_db createTableIfNotExists
  simp [h]

theorem init_db_idem (db : DBState) : init_db (init_db db) = init_db db :=
  init_db_of_has _ (init_db_has_queries db)

theorem init_db_iterate (db : DBState) (k : Nat) :
    init_db^[k + 1] db = init_db db := by
  induction k with
  | zero => rfl
  | succ m ih =>
    rw [Function.iterate_succ_apply', ih, init_db_idem]

theorem filter_init_db (db : DBState)
    (hcols : ∀ t ∈ db.tables, t.name = "queries" → t.columns = queriesColumns)
    (huniq : (db.tables.filter fun tb => tb.name == "queries").length ≤ 1) :
    ((init_db db).tables.filter fun tb => tb.name == "queries")
      = [⟨"queries", queriesColumns⟩] := by
  unfold init_db createTableIfNotExists
  split
  case isTrue h =>
    obtain ⟨t, ht, hname⟩ := List.any_eq_true.mp h
    have hmem : t ∈ db.tables.filter fun tb => tb.name == "queries" :=
      List.mem_filter.mpr ⟨ht, hname⟩
    have hpos : 1 ≤ (db.tables.filter fun tb => tb.name == "queries").length :=
      List.length_pos.mpr (List.ne_nil_of_mem hmem)
    obtain ⟨t₀, ht₀⟩ := List.length_eq_one.mp (Nat.le_antisymm huniq hpos)
    have hmem₀ : t₀ ∈ db.tables.filter fun tb => tb.name == "queries" := by
      rw [ht₀]; exact List.mem_singleton.mpr rfl
    obtain ⟨hin₀, hname₀⟩ := List.mem_filter.mp hmem₀
    have hname₀' : t₀.name = "queries" := by simpa using hname₀
    have hcols₀ : t₀.columns = queriesColumns := hcols t₀ hin₀ hname₀'
    rw [ht₀]
    obtain ⟨nm, cols⟩ := t₀
    simp only at hname₀' hcols₀
    rw [hname₀', hcols₀]
  case isFalse h =>
    have h' : ∀ t ∈ db.tables, ¬(t.name = "queries") := by simpa using h
    have hnil : (db.tables.filter fun tb => tb.name == "queries") = [] := by
      rw [List.filter_eq_nil_iff]
      intro t ht
      simpa using h' t ht
    simp [List.filter_append, hnil]

theorem connReleased_close (c : Option ConnState) :
    connReleased (close_connection c) = true := by
  cases c <;> rfl

/-! ## The claims -/

/-- C1: for a request body with a `question` field holding a string
whose trim is non-empty, and a gateway answering `T` on the trimmed
question, `handle_query` returns 200 with body `{"answer": T}` and
appends exactly one record `(question = trimmed input, answer = T)`
to the store. -/
theorem handle_query_success (gw : Gateway) (now : Nat) (st : Store)
    (fields : List (String × PyVal)) (q T : String)
    (hq : dictGet fields "question" = some (PyVal.pyStr q))
    (hne : pyStrip q ≠ "")
    (hgw : gw (pyStrip q) = Except.ok T) :
    handle_query (some gw) true now st (ReqBody.parsed (PyVal.pyDict fields))
      = ⟨Outcome.response 200 [("answer", PyVal.pyStr T)],
         insertRow st (pyStrip q) T now, some ConnState.opened⟩ := by
  simp [handle_query, getQuestionField, hq, hne, hgw]

/-- Witness for C1: the spec's concrete scenario, question
`"  What is 2+2?  "` with the gateway stub returning `"4"`. -/
theorem handle_query_success_witness :
    handle_query (some fun _ => Except.ok "4") true 0 ⟨1, []⟩
        (ReqBody.parsed (PyVal.pyDict [("question", PyVal.pyStr "  What is 2+2?  ")]))
      = ⟨Outcome.response 200 [("answer", PyVal.pyStr "4")],
         ⟨2, [⟨1, "What is 2+2?", "4", 0⟩]⟩, some ConnState.opened⟩ :=
  handle_query_success (fun _ => Except.ok "4") 0 ⟨1, []⟩
    [("question", PyVal.pyStr "  What is 2+2?  ")] "  What is 2+2?  " "4"
    rfl (by decide) rfl

/-- C2: when the `question` field is absent from the JSON object, or
holds a string that trims to empty, `handle_query` returns 400 with
the fixed error body, the store is unchanged, and no connection is
opened.  The result is the same for every value of `client`, so the
AI gateway is not consulted. -/
theorem handle_query_reject_blank (client : Option Gateway) (insertOk : Bool)
    (now : Nat) (st : Store) (fields : List (String × PyVal))
    (h : dictGet fields "question" = none
      ∨ ∃ s, dictGet fields "question" = some (PyVal.pyStr s) ∧ pyStrip s = "") :
    handle_query client insertOk now st (ReqBody.parsed (PyVal.pyDict fields))
      = ⟨Outcome.response 400 body400, st, none⟩ := by
  rcases h with h | ⟨s, hs, hblank⟩
  · simp [handle_query, getQuestionField, h, pyStrip, dropLeadingWs]
  · simp [handle_query, getQuestionField, hs, hblank]

/-- Witness for C2: the spec's concrete scenario `POST {}` (no
question field), with a live gateway stub that is not consulted. -/
theorem handle_query_reject_blank_witness :
    handle_query (some fun _ => Except.ok "unused") true 0 ⟨1, []⟩
        (ReqBody.parsed (PyVal.pyDict []))
      = ⟨Outcome.response 400 body400, ⟨1, []⟩, none⟩ :=
  handle_query_reject_blank (some fun _ => Except.ok "unused") true 0 ⟨1, []⟩ []
    (Or.inl rfl)

/-- C3: when the gateway call raises, `handle_query` returns 500 with
the fixed generic body and the store is unchanged (no connection was
even opened, since `get_db` on line 93 is only reached after a
successful gateway call). -/
theorem handle_query_gateway_error (gw : Gateway) (insertOk : Bool) (now : Nat)
    (st : Store) (fields : List (String × PyVal)) (q : String)
    (hq : dictGet fields "question" = some (PyVal.pyStr q))
    (hne : pyStrip q ≠ "")
    (hgw : gw (pyStrip q) = Except.error ()) :
    handle_query (some gw) insertOk now st (ReqBody.parsed (PyVal.pyDict fields))
      = ⟨Outcome.response 500 body500, st, none⟩ := by
  simp [handle_query, getQuestionField, hq, hne, hgw]

/-- Witness for C3: a gateway stub that always raises. -/
theorem handle_query_gateway_error_witness :
    handle_query (some fun _ => Except.error ()) true 0 ⟨1, []⟩
        (ReqBody.parsed (PyVal.pyDict [("question", PyVal.pyStr "hi")]))
      = ⟨Outcome.response 500 body500, ⟨1, []⟩, none⟩ :=
  handle_query_gateway_error (fun _ => Except.error ()) true 0 ⟨1, []⟩
    [("question", PyVal.pyStr "hi")] "hi" rfl (by decide) rfl

/-- C4: when the gateway succeeds with answer `T` but the insert or
commit raises, `handle_query` returns 500 with the fixed generic
body; the answer `T` appears nowhere in the response, and the store
is unchanged (nothing was committed).  The opened connection stays in
`g._database` until teardown. -/
theorem handle_query_insert_failure (gw : Gateway) (now : Nat) (st : Store)
    (fields : List (String × PyVal)) (q T : String)
    (hq : dictGet fields "question" = some (PyVal.pyStr q))
    (hne : pyStrip q ≠ "")
    (hgw : gw (pyStrip q) = Except.ok T) :
    handle_query (some gw) false now st (ReqBody.parsed (PyVal.pyDict fields))
      = ⟨Outcome.response 500 body500, st, some ConnState.opened⟩ := by
  simp [handle_query, getQuestionField, hq, hne, hgw]

/-- Witness for C4: a successful gateway stub with a failing store. -/
theorem handle_query_insert_failure_witness :
    handle_query (some fun _ => Except.ok "4") false 0 ⟨1, []⟩
        (ReqBody.parsed (PyVal.pyDict [("question", PyVal.pyStr "hi")]))
      = ⟨Outcome.response 500 body500, ⟨1, []⟩, some ConnState.opened⟩ :=
  handle_query_insert_failure (fun _ => Except.ok "4") 0 ⟨1, []⟩
    [("question", PyVal.pyStr "hi")] "hi" "4" rfl (by decide) rfl

/-- C5, counterexample: the claim says every persisted record has a
non-empty answer for every gateway result text, including the empty
string; but the `answer` column is only `NOT NULL`, so when the
gateway returns the empty string the handler persists a record whose
answer is `""`. -/
theorem persisted_record_empty_answer :
    (handle_query (some fun _ => Except.ok "") true 0 ⟨1, []⟩
        (ReqBody.parsed (PyVal.pyDict [("question", PyVal.pyStr "hi")]))).store.rows
      = [⟨1, "hi", "", 0⟩] := rfl

/-- C5, amended: each call to the handler either leaves the rows of
the store untouched or appends exactly one record whose question is
non-empty (the answer may be empty); records already present are
never modified or removed. -/
theorem store_append_only (client : Option Gateway) (insertOk : Bool) (now : Nat)
    (st : Store) (body : ReqBody) :
    (handle_query client insertOk now st body).store.rows = st.rows
    ∨ ∃ q a, q ≠ ""
      ∧ (handle_query client insertOk now st body).store.rows
          = st.rows ++ [⟨st.nextId, q, a, now⟩] := by
  cases body with
  | invalidJson => exact Or.inl rfl
  | parsed data =>
    cases hg : getQuestionField data with
    | error e => simp [handle_query, hg]
    | ok raw =>
      by_cases hb : pyStrip raw = ""
      · simp [handle_query, hg, hb]
      · cases client with
        | none => simp [handle_query, hg, hb]
        | some gw =>
          cases hgw : gw (pyStrip raw) with
          | error u => simp [handle_query, hg, hb, hgw]
          | ok a =>
            cases insertOk with
            | false => simp [handle_query, hg, hb, hgw]
            | true =>
              refine Or.inr ⟨pyStrip raw, a, hb, ?_⟩
              simp [handle_query, hg, hb, hgw, insertRow]

/-- C6, counterexample: the claim says every failure on any request
body is mapped to the fixed 400 or 500 response; but a `question`
value that is not a string makes `.strip()` raise an
`AttributeError` on line 75, outside the `try` block, so the
exception escapes the handler unmapped. -/
theorem nonstring_question_uncaught :
    handle_query (some fun _ => Except.ok "ok") true 0 ⟨1, []⟩
        (ReqBody.parsed (PyVal.pyDict [("question", PyVal.pyInt 5)]))
      = ⟨Outcome.uncaught PyExc.attributeError, ⟨1, []⟩, none⟩ := rfl

/-- C6, amended: for request bodies that are JSON objects whose
`question` field is absent or holds a string, every outcome of
`handle_query` is one of the three mapped responses (the fixed 400
body, the fixed 500 body, or 200 with an answer); for other bodies
(unparseable JSON, a non-object value, or a non-string question) the
exception raised on lines 74-75 escapes the handler. -/
theorem handle_query_mapped_responses (client : Option Gateway) (insertOk : Bool)
    (now : Nat) (st : Store) (fields : List (String × PyVal))
    (h : dictGet fields "question" = none
      ∨ ∃ s, dictGet fields "question" = some (PyVal.pyStr s)) :
    (handle_query client insertOk now st (ReqBody.parsed (PyVal.pyDict fields))).outcome
        = Outcome.response 400 body400
    ∨ (handle_query client insertOk now st (ReqBody.parsed (PyVal.pyDict fields))).outcome
        = Outcome.response 500 body500
    ∨ ∃ T, (handle_query client insertOk now st
          (ReqBody.parsed (PyVal.pyDict fields))).outcome
        = Outcome.response 200 [("answer", PyVal.pyStr T)] := by
  have hg : ∃ s, getQuestionField (PyVal.pyDict fields) = Except.ok s := by
    rcases h with h | ⟨s, hs⟩
    · exact ⟨"", by simp [getQuestionField, h]⟩
    · exact ⟨s, by simp [getQuestionField, hs]⟩
  obtain ⟨s, hs⟩ := hg
  by_cases hb : pyStrip s = ""
  · exact Or.inl (by simp [handle_query, hs, hb])
  · cases client with
    | none => exact Or.inr (Or.inl (by simp [handle_query, hs, hb]))
    | some gw =>
      cases hgw : gw (pyStrip s) with
      | error u => exact Or.inr (Or.inl (by simp [handle_query, hs, hb, hgw]))
      | ok T =>
        cases insertOk with
        | false => exact Or.inr (Or.inl (by simp [handle_query, hs, hb, hgw]))
        | true => exact Or.inr (Or.inr ⟨T, by simp [handle_query, hs, hb, hgw]⟩)

/-- Witness for C6 (amended): a well-formed body on a succeeding
gateway lands in one of the three mapped responses. -/
theorem handle_query_mapped_responses_witness :
    (handle_query (some fun _ => Except.ok "4") true 0 ⟨1, []⟩
        (ReqBody.parsed (PyVal.pyDict [("question", PyVal.pyStr "hi")]))).outcome
        = Outcome.response 400 body400
    ∨ (handle_query (some fun _ => Except.ok "4") true 0 ⟨1, []⟩
        (ReqBody.parsed (PyVal.pyDict [("question", PyVal.pyStr "hi")]))).outcome
        = Outcome.response 500 body500
    ∨ ∃ T, (handle_query (some fun _ => Except.ok "4") true 0 ⟨1, []⟩
          (ReqBody.parsed (PyVal.pyDict [("question", PyVal.pyStr "hi")]))).outcome
        = Outcome.response 200 [("answer", PyVal.pyStr T)] :=
  handle_query_mapped_responses (some fun _ => Except.ok "4") true 0 ⟨1, []⟩
    [("question", PyVal.pyStr "hi")] (Or.inr ⟨"hi", rfl⟩)

/-- C7: `init_db` is idempotent: for every n ≥ 1, after n calls the
database holds exactly one `queries` table with columns id, question,
answer, timestamp, and the rows present before are unchanged.  The
hypotheses say the starting database is one this system can produce:
any pre-existing `queries` table (there is at most one, as SQLite
forbids duplicate table names) has the declared columns. -/
theorem init_db_idempotent_schema (db : DBState) (n : Nat) (hn : 1 ≤ n)
    (hcols : ∀ t ∈ db.tables, t.name = "queries" → t.columns = queriesColumns)
    (huniq : (db.tables.filter fun tb => tb.name == "queries").length ≤ 1) :
    ((init_db^[n] db).tables.filter fun tb => tb.name == "queries")
        = [⟨"queries", queriesColumns⟩]
    ∧ (init_db^[n] db).rows = db.rows := by
  obtain ⟨k, rfl⟩ : ∃ k, n = k + 1 := ⟨n - 1, (Nat.succ_pred_eq_of_pos hn).symm⟩
  rw [init_db_iterate]
  exact ⟨filter_init_db db hcols huniq, init_db_rows db⟩

/-- Witness for C7: two runs on the empty database. -/
theorem init_db_idempotent_schema_witness :
    ((init_db^[2] (⟨[], []⟩ : DBState)).tables.filter fun tb => tb.name == "queries")
        = [⟨"queries", queriesColumns⟩]
    ∧ (init_db^[2] (⟨[], []⟩ : DBState)).rows = ([] : List Row) :=
  init_db_idempotent_schema ⟨[], []⟩ 2 (by decide) (by simp) (by decide)

/-- C8: whatever the request body, gateway and store do, after the
teardown hook runs the per-request connection slot holds no open
connection: a connection that was opened has been closed, and the
slot is untouched otherwise. -/
theorem requestCycle_releases_conn (client : Option Gateway) (insertOk : Bool)
    (now : Nat) (st : Store) (body : ReqBody) :
    connReleased (requestCycle client insertOk now st body).conn = true :=
  connReleased_close ((handle_query client insertOk now st body).conn)

/-- C9: when the credential is missing, startup still completes (the
client-construction exception is caught on lines 57-61, leaving
`client` unbound) and every request with a non-empty trimmed question
gets the fixed 500 response with no store write — whether the client
name is unbound (NameError inside the `try`) or the client exists but
every call fails with an authentication error. -/
theorem missing_credential_deferred (e : PyExc) (client : Option Gateway)
    (hc : credentialMissing client) (insertOk : Bool) (now : Nat) (st : Store)
    (fields : List (String × PyVal)) (q : String)
    (hq : dictGet fields "question" = some (PyVal.pyStr q))
    (hne : pyStrip q ≠ "") :
    startupClient (Except.error e) = none
    ∧ (handle_query client insertOk now st (ReqBody.parsed (PyVal.pyDict fields))).outcome
        = Outcome.response 500 body500
    ∧ (handle_query client insertOk now st (ReqBody.parsed (PyVal.pyDict fields))).store
        = st := by
  refine ⟨rfl, ?_⟩
  rcases hc with rfl | ⟨gw, rfl, hgw⟩
  · constructor <;> simp [handle_query, getQuestionField, hq, hne]
  · constructor <;> simp [handle_query, getQuestionField, hq, hne, hgw]

/-- Witness for C9: unbound client after a failed initialisation. -/
theorem missing_credential_deferred_witness :
    startupClient (Except.error PyExc.attributeError) = none
    ∧ (handle_query none true 0 ⟨1, []⟩
        (ReqBody.parsed (PyVal.pyDict [("question", PyVal.pyStr "hi")]))).outcome
        = Outcome.response 500 body500
    ∧ (handle_query none true 0 ⟨1, []⟩
        (ReqBody.parsed (PyVal.pyDict [("question", PyVal.pyStr "hi")]))).store
        = ⟨1, []⟩ :=
  missing_credential_deferred PyExc.attributeError none (Or.inl rfl) true 0 ⟨1, []⟩
    [("question", PyVal.pyStr "hi")] "hi" rfl (by decide)

/-- C10: with the gateway, the store-failure oracle, the initial
store and the request body fixed, the handler's response and the
resulting rows do not depend on the wall clock — the only
environmental input left in the embedding — so two runs produce the
same response and the same store contents up to the timestamp column
(ids agree since they are computed from the fixed initial store). -/
theorem handle_query_deterministic (client : Option Gateway) (insertOk : Bool)
    (st : Store) (body : ReqBody) (now₁ now₂ : Nat) :
    (handle_query client insertOk now₁ st body).outcome
        = (handle_query client insertOk now₂ st body).outcome
    ∧ eraseTimestamps (handle_query client insertOk now₁ st body).store.rows
        = eraseTimestamps (handle_query client insertOk now₂ st body).store.rows := by
  cases body with
  | invalidJson => exact ⟨rfl, rfl⟩
  | parsed data =>
    cases hg : getQuestionField data with
    | error e => simp [handle_query, hg]
    | ok raw =>
      by_cases hb : pyStrip raw = ""
      · simp [handle_query, hg, hb]
      · cases client with
        | none => simp [handle_query, hg, hb]
        | some gw =>
          cases hgw : gw (pyStrip raw) with
          | error u => simp [handle_query, hg, hb, hgw]
          | ok a =>
            cases insertOk with
            | false => simp [handle_query, hg, hb, hgw]
            | true =>
              simp [handle_query, hg, hb, hgw, insertRow, eraseTimestamps]

end AIQueryApp
